import Mathlib

/-!
Verification of `instance-analysis.py`, a script that compares configuration
entities (projects, priorities, resolutions, issue types, filters, dashboards,
custom fields, statuses) between two Jira instances and renders a report.

The script's data is JSON: records are string-keyed dictionaries.  We embed a
record as an association list of string attributes (`Item`), a Python `dict`
built by a comprehension as an association list with first-insertion key order
and last-write-wins values (`dictOfList`), and the generated document as a list
of block items (`DocItem`).  Fallible dictionary indexing (`item['key']`,
which raises `KeyError` in Python) is embedded as `Except String`; `dict.get`
with a default is total.
-/

/-- A JSON-ish flat record: string attributes keyed by name (a Python dict
with unique keys). -/
abbrev Item := List (String × String)

/-- First-match lookup in an association list (Python `d[k]` / `k in d` on a
dict, whose keys are unique). -/
def dictFind : List (String × String) → String → Option String
  | [], _ => none
  | p :: rest, k => if p.1 = k then some p.2 else dictFind rest k

/-- Python `k in d`. -/
def dictMem (d : List (String × String)) (k : String) : Bool :=
  (dictFind d k).isSome

/-- Python `d[k] = v` on a dict: overwrite in place if present, else append. -/
def dictUpdate (d : List (String × String)) (k v : String) : List (String × String) :=
  if dictMem d k then d.map (fun p => if p.1 = k then (k, v) else p)
  else d ++ [(k, v)]

/-- A Python dict comprehension over a list of (key, value) pairs:
first-insertion key order, last write wins. -/
def dictOfList (l : List (String × String)) : List (String × String) :=
  l.foldl (fun d p => dictUpdate d p.1 p.2) []

/-- The keys of an association list, in order. -/
def dictKeys (d : List (String × String)) : List String :=
  d.map Prod.fst

/-- `analyze_additions` (lines 91-96): entries of `source` whose key is not in
`target`. -/
def analyze_additions (source target : List (String × String)) :
    List (String × String) :=
  source.filter (fun p => !(dictMem target p.1))

/-- `analyze_merges` (lines 98-103): entries of `source` whose key is in
`target`. -/
def analyze_merges (source target : List (String × String)) :
    List (String × String) :=
  source.filter (fun p => dictMem target p.1)

lemma dictMem_iff : ∀ (d : List (String × String)) (k : String),
    dictMem d k = true ↔ k ∈ dictKeys d
  | [], k => by simp [dictMem, dictFind, dictKeys]
  | p :: rest, k => by
    by_cases h : p.1 = k
    · simp [dictMem, dictFind, h, dictKeys]
    · have ih := dictMem_iff rest k
      simp only [dictMem, dictFind, if_neg h, dictKeys, List.map_cons,
        List.mem_cons] at ih ⊢
      rw [ih]
      constructor
      · exact Or.inr
      · rintro (rfl | hm)
        · exact absurd rfl h
        · exact hm

lemma dictKeys_map_keyfix (d : List (String × String)) (k v : String) :
    dictKeys (d.map (fun p => if p.1 = k then (k, v) else p)) = dictKeys d := by
  induction d with
  | nil => rfl
  | cons p rest ih =>
    by_cases h : p.1 = k
    · simp only [dictKeys, List.map_cons, if_pos h] at ih ⊢
      rw [ih]
      simp [h]
    · simp only [dictKeys, List.map_cons, if_neg h] at ih ⊢
      rw [ih]

lemma dictKeys_dictUpdate_nodup (d : List (String × String)) (k v : String)
    (h : (dictKeys d).Nodup) : (dictKeys (dictUpdate d k v)).Nodup := by
  unfold dictUpdate
  split
  · rw [dictKeys_map_keyfix]
    exact h
  · next hmem =>
    have hk : k ∉ dictKeys d := by
      rw [← dictMem_iff]
      simpa using hmem
    have : dictKeys (d ++ [(k, v)]) = dictKeys d ++ [k] := by
      simp [dictKeys]
    rw [this]
    have : dictKeys d ++ [k] = dictKeys d ++ k :: [] := rfl
    rw [this, List.nodup_middle]
    simp [List.nodup_cons, hk, h]

lemma dictOfList_foldl_nodup : ∀ (l : List (String × String))
    (d : List (String × String)), (dictKeys d).Nodup →
    (dictKeys (l.foldl (fun d p => dictUpdate d p.1 p.2) d)).Nodup
  | [], _, h => h
  | p :: rest, d, h =>
    dictOfList_foldl_nodup rest _ (dictKeys_dictUpdate_nodup d p.1 p.2 h)

lemma dictOfList_keys_nodup (l : List (String × String)) :
    (dictKeys (dictOfList l)).Nodup :=
  dictOfList_foldl_nodup l [] (by simp [dictKeys])

lemma mem_of_dictFind_eq_some : ∀ {d : List (String × String)} {k v : String},
    dictFind d k = some v → (k, v) ∈ d
  | p :: rest, k, v, h => by
    unfold dictFind at h
    split at h
    · next heq =>
      cases h
      exact (List.mem_cons).2 (Or.inl (by rw [← heq]))
    · exact List.mem_cons_of_mem _ (mem_of_dictFind_eq_some h)

lemma dictFind_eq_some_of_mem_nodup : ∀ {d : List (String × String)}
    {k v : String}, (dictKeys d).Nodup → (k, v) ∈ d → dictFind d k = some v
  | p :: rest, k, v, hnd, hm => by
    simp only [dictKeys, List.map_cons, List.nodup_cons] at hnd
    rcases List.mem_cons.1 hm with heq | hrest
    · rw [← heq]
      simp [dictFind]
    · have hk : k ∈ dictKeys rest :=
        List.mem_map.2 ⟨(k, v), hrest, rfl⟩
      have hne : p.1 ≠ k := fun h => hnd.1 (h ▸ hk)
      unfold dictFind
      rw [if_neg hne]
      exact dictFind_eq_some_of_mem_nodup hnd.2 hrest

lemma filter_keyEq_nil {d : List (String × String)} {k : String}
    (h : k ∉ dictKeys d) : d.filter (fun p => decide (p.1 = k)) = [] := by
  induction d with
  | nil => rfl
  | cons p rest ih =>
    simp only [dictKeys, List.map_cons, List.mem_cons, not_or] at h
    rw [List.filter_cons]
    rw [if_neg (by simpa using fun he => h.1 he.symm)]
    exact ih (by simpa [dictKeys] using h.2)

lemma filter_keyEq_singleton : ∀ {d : List (String × String)} {k v : String},
    (dictKeys d).Nodup → (k, v) ∈ d →
    d.filter (fun p => decide (p.1 = k)) = [(k, v)]
  | p :: rest, k, v, hnd, hm => by
    simp only [dictKeys, List.map_cons, List.nodup_cons] at hnd
    rcases List.mem_cons.1 hm with heq | hrest
    · rw [← heq] at hnd ⊢
      rw [List.filter_cons, if_pos (by simp)]
      rw [filter_keyEq_nil hnd.1]
    · have hk : k ∈ dictKeys rest :=
        List.mem_map.2 ⟨(k, v), hrest, rfl⟩
      have hne : p.1 ≠ k := fun h => hnd.1 (h ▸ hk)
      rw [List.filter_cons, if_neg (by simpa using hne)]
      exact filter_keyEq_singleton hnd.2 hrest

lemma dictKeys_filter_nodup (d : List (String × String))
    (pred : String × String → Bool) (h : (dictKeys d).Nodup) :
    (dictKeys (d.filter pred)).Nodup :=
  List.Nodup.sublist ((d.filter_sublist).map Prod.fst) h

/-- C1: under the generic rule, every key of the source mapping lands in
exactly one of additions (key absent from target) and merges (key present in
target): the union of their key sets is the source key set and their
intersection is empty. -/
theorem generic_rule_addition_merge_partition
    (source target : List (String × String)) (k : String) :
    ((k ∈ dictKeys (analyze_additions source target) ∨
        k ∈ dictKeys (analyze_merges source target)) ↔ k ∈ dictKeys source)
      ∧ ¬(k ∈ dictKeys (analyze_additions source target) ∧
            k ∈ dictKeys (analyze_merges source target)) := by
  constructor
  · constructor
    · rintro (h | h) <;>
      · simp only [dictKeys, analyze_additions, analyze_merges, List.mem_map,
          List.mem_filter] at h ⊢
        obtain ⟨p, ⟨hp, _⟩, hk⟩ := h
        exact ⟨p, hp, hk⟩
    · intro h
      simp only [dictKeys, List.mem_map] at h
      obtain ⟨p, hp, hk⟩ := h
      by_cases hd : dictMem target k
      · right
        simp only [dictKeys, analyze_merges, List.mem_map, List.mem_filter]
        exact ⟨p, ⟨hp, by rw [hk]; exact hd⟩, hk⟩
      · left
        simp only [dictKeys, analyze_additions, List.mem_map, List.mem_filter,
          Bool.not_eq_true']
        exact ⟨p, ⟨hp, by rw [hk]; exact Bool.not_eq_true _ ▸ hd⟩, hk⟩
  · rintro ⟨ha, hm⟩
    simp only [dictKeys, analyze_additions, analyze_merges, List.mem_map,
      List.mem_filter, Bool.not_eq_true'] at ha hm
    obtain ⟨p, ⟨_, hpf⟩, hpk⟩ := ha
    obtain ⟨q, ⟨_, hqt⟩, hqk⟩ := hm
    rw [hpk] at hpf
    rw [hqk] at hqt
    rw [hpf] at hqt
    exact Bool.false_ne_true hqt

/-! ## Entity records

Custom fields carry a nested `schema.type`; statuses a nested
`statusCategory.name`.  An absent key is `none`; Python raises `KeyError` on
direct indexing of an absent key, and `.get` supplies a default. -/

/-- A custom field's `schema` object (only its `type` key is read). -/
structure Schema where
  type : Option String
deriving DecidableEq

/-- A custom field record: `name` is read by direct indexing (line 217),
`schema` via `.get('schema', {})`. -/
structure CustomField where
  name : Option String
  schema : Option Schema
deriving DecidableEq

/-- `get_field_type` (lines 212-213): `field.get('schema', {}).get('type', 'N/A')`. -/
def get_field_type (field : CustomField) : String :=
  match field.schema with
  | none => "N/A"
  | some s => s.type.getD "N/A"

/-- The denylist of custom-field types (line 215). -/
def non_migratable_types : List String :=
  ["option-with-child", "project", "sd-servicelevelagreement", "multiuserpicker"]

/-- The pairs fed to the `source_fields` / `target_fields` dict comprehensions
(lines 217-218): `field['name']` raises on a missing name. -/
def customFieldPairsE : List CustomField → Except String (List (String × String))
  | [] => Except.ok []
  | field :: rest =>
    match field.name with
    | none => Except.error "KeyError: name"
    | some n =>
      match customFieldPairsE rest with
      | Except.error e => Except.error e
      | Except.ok r => Except.ok ((n, get_field_type field) :: r)

/-- The `name -> type` dict of lines 217-218 (Python dict semantics). -/
def customFieldsMapE (l : List CustomField) : Except String (List (String × String)) :=
  match customFieldPairsE l with
  | Except.error e => Except.error e
  | Except.ok ps => Except.ok (dictOfList ps)

/-- Custom-field additions (line 222): name absent from target and type not
denylisted. -/
def cfAdditions (source_fields target_fields : List (String × String)) :
    List (String × String) :=
  source_fields.filter
    (fun p => !(dictMem target_fields p.1) && decide (p.2 ∉ non_migratable_types))

/-- Custom-field merges (line 238): same name on both sides with different
types (`name in target_fields and source_type != target_fields[name]`; the
membership test and the index are fused into one lookup). -/
def cfMerges (source_fields target_fields : List (String × String)) :
    List (String × String) :=
  source_fields.filter (fun p =>
    match dictFind target_fields p.1 with
    | some target_type => decide (p.2 ≠ target_type)
    | none => false)

/-- The rows of the custom-field merges table (lines 247-254); the target type
is `target_fields.get(name, 'N/A')` (line 248). -/
def cfMergeRows (source_fields target_fields : List (String × String)) :
    List (List String) :=
  (cfMerges source_fields target_fields).map (fun p =>
    [p.1, p.2, (dictFind target_fields p.1).getD "N/A",
      "Rename source/target or Merge or Delete"])

/-- Non-migratable custom fields (line 260): denylisted type, target ignored. -/
def cfNonMigratable (source_fields : List (String × String)) :
    List (String × String) :=
  source_fields.filter (fun p => decide (p.2 ∈ non_migratable_types))

/-- A status's `statusCategory` object (only its `name` key is read). -/
structure StatusCategory where
  name : Option String
deriving DecidableEq

/-- A status record; both `name` and `statusCategory` (and the category's
`name`) are read by direct indexing (lines 286, 302-303). -/
structure Status where
  name : Option String
  statusCategory : Option StatusCategory
deriving DecidableEq

/-- The pairs fed to the status dict comprehensions (lines 286, 302-303):
`status['name']` and `status['statusCategory']['name']`, each raising when
absent. -/
def statusPairsE : List Status → Except String (List (String × String))
  | [] => Except.ok []
  | status :: rest =>
    match status.name with
    | none => Except.error "KeyError: name"
    | some n =>
      match status.statusCategory with
      | none => Except.error "KeyError: statusCategory"
      | some cat =>
        match cat.name with
        | none => Except.error "KeyError: name"
        | some cn =>
          match statusPairsE rest with
          | Except.error e => Except.error e
          | Except.ok r => Except.ok ((n, cn) :: r)

/-- The `name -> category name` dict of lines 286 / 302-303. -/
def statusMapE (l : List Status) : Except String (List (String × String)) :=
  match statusPairsE l with
  | Except.error e => Except.error e
  | Except.ok ps => Except.ok (dictOfList ps)

/-- Status conflicts (line 304): same name on both sides with different
category names. -/
def statusConflicts (source_statuses target_statuses : List (String × String)) :
    List (String × String) :=
  source_statuses.filter (fun p =>
    match dictFind target_statuses p.1 with
    | some target_category => decide (p.2 ≠ target_category)
    | none => false)

/-- The rows of the status conflicts table (lines 313-320).  The code indexes
`target_statuses[name]` directly; that index is always defined for a conflict
entry (the conflict filter requires membership), so the `getD` default is
unreachable. -/
def statusConflictRows (source_statuses target_statuses : List (String × String)) :
    List (List String) :=
  (statusConflicts source_statuses target_statuses).map (fun p =>
    [p.1, p.2, (dictFind target_statuses p.1).getD "",
      "Change category or Merge"])

/-- Python `item[k]` on a flat record: `KeyError` when absent. -/
def getAttrE (item : Item) (k : String) : Except String String :=
  match dictFind item k with
  | some v => Except.ok v
  | none => Except.error ("KeyError: " ++ k)

/-- Python `item.get(k, d)` on a flat record. -/
def getAttrD (item : Item) (k d : String) : String :=
  (dictFind item k).getD d

/-- The pairs fed to the generic `id -> description` dict comprehensions
(lines 113-114, 332-333): `item[key_attr]` raises when the identity attribute
is absent; the description defaults to `'No description'`. -/
def itemPairsE : List Item → String → Except String (List (String × String))
  | [], _ => Except.ok []
  | item :: rest, attr =>
    match getAttrE item attr with
    | Except.error e => Except.error e
    | Except.ok k =>
      match itemPairsE rest attr with
      | Except.error e => Except.error e
      | Except.ok r =>
        Except.ok ((k, getAttrD item "description" "No description") :: r)

/-- The generic `id -> description` dict (Python dict semantics). -/
def itemMapE (l : List Item) (attr : String) : Except String (List (String × String)) :=
  match itemPairsE l attr with
  | Except.error e => Except.error e
  | Except.ok ps => Except.ok (dictOfList ps)

/-- `[i['name'] for i in target_data]` (lines 170, 189). -/
def itemNamesE : List Item → Except String (List String)
  | [] => Except.ok []
  | item :: rest =>
    match getAttrE item "name" with
    | Except.error e => Except.error e
    | Except.ok n =>
      match itemNamesE rest with
      | Except.error e => Except.error e
      | Except.ok r => Except.ok (n :: r)

/-- The filter/dashboard conflict comprehension (lines 170, 189):
`[item['name'] for item in source_data if item['name'] in [i['name'] for i in
target_data]]`; the inner name list is re-evaluated for each source item, so a
target record with no name only raises once a source item is examined. -/
def conflictNamesE : List Item → List Item → Except String (List String)
  | [], _ => Except.ok []
  | item :: rest, target_data =>
    match getAttrE item "name" with
    | Except.error e => Except.error e
    | Except.ok n =>
      match itemNamesE target_data with
      | Except.error e => Except.error e
      | Except.ok tns =>
        match conflictNamesE rest target_data with
        | Except.error e => Except.error e
        | Except.ok r => Except.ok (if n ∈ tns then n :: r else r)

/-! ## The report document

The docx document is embedded as a list of block items appended in program
order.  Each section builder returns the items it appends together with
`some e` when the Python code would raise inside the section body (items
appended before the raise are kept, mirroring in-place mutation of `doc`). -/

/-- One block appended to the document: a heading with its level, a paragraph,
or a grid table with a header row and data rows. -/
inductive DocItem where
  | heading (text : String) (level : Nat)
  | para (text : String)
  | table (header : List String) (rows : List (List String))
deriving DecidableEq

/-- True when the item is a table with a header row but no data rows. -/
def isEmptyTable : DocItem → Bool
  | DocItem.table _ rows => rows.isEmpty
  | _ => false

/-- No item of the list is a header-only table. -/
def noEmptyTable (items : List DocItem) : Prop :=
  ∀ it ∈ items, isEmptyTable it = false

/-- `add_projects_section` (lines 106-144).  The additions/conflicts dicts
(lines 113-114) are computed before any block is appended, so a `KeyError`
leaves the section empty.  An empty conflicts result appends nothing (the
`if conflicts:` at line 134 has no `else`). -/
def add_projects_section (source_data target_data : List Item) :
    List DocItem × Option String :=
  let source_count := toString source_data.length
  let target_count := toString target_data.length
  match itemMapE source_data "key" with
  | Except.error e => ([], some e)
  | Except.ok smap =>
    match itemMapE target_data "key" with
    | Except.error e => ([], some e)
    | Except.ok tmap =>
      let additions := analyze_additions smap tmap
      let conflicts := analyze_merges smap tmap
      ([DocItem.heading "Projects" 1,
        DocItem.para ("• Number of projects in source instance: " ++ source_count),
        DocItem.para ("• Number of projects in target instance: " ++ target_count),
        DocItem.heading "Analysis of what will be added to the target instance" 2]
       ++ (if additions.isEmpty then
            [DocItem.para "We didn\x27t identify anything that will be added."]
          else
            [DocItem.table ["Key", "Description"]
              (additions.map (fun p => [p.1, p.2]))])
       ++ (if conflicts.isEmpty then []
          else
            [DocItem.heading "These project keys have conflicts and will need to be renamed in the source or target instance in order to be migrated." 2,
             DocItem.table ["Key", "Description"]
              (conflicts.map (fun p => [p.1, p.2]))]),
       none)

/-- `analyze_and_add_section` (lines 325-362), the generic section used for
priorities, resolutions and issue types.  The merges table (lines 354-362) is
appended unconditionally, even when `merges` is empty. -/
def analyze_and_add_section (title : String) (source_data target_data : List Item)
    (key_attr : String) : List DocItem × Option String :=
  let source_count := toString source_data.length
  let target_count := toString target_data.length
  match itemMapE source_data key_attr with
  | Except.error e => ([], some e)
  | Except.ok smap =>
    match itemMapE target_data key_attr with
    | Except.error e => ([], some e)
    | Except.ok tmap =>
      let additions := analyze_additions smap tmap
      let merges := analyze_merges smap tmap
      ([DocItem.heading title 1,
        DocItem.para ("• Number of " ++ title.toLower ++ " in source instance: " ++ source_count),
        DocItem.para ("• Number of " ++ title.toLower ++ " in target instance: " ++ target_count),
        DocItem.heading "Analysis of what will be added to the target instance" 2]
       ++ (if additions.isEmpty then
            [DocItem.para "We didn\x27t identify anything that will be added."]
          else
            [DocItem.table ["Name", "Description"]
              (additions.map (fun p => [p.1, p.2]))])
       ++ [DocItem.heading "What will be merged (because they are on both instances)" 2,
           DocItem.table ["Name", "Description"]
            (merges.map (fun p => [p.1, p.2]))],
       none)

/-- `add_priorities_section` (lines 146-147); defined but never called (the
main loop calls `analyze_and_add_section` directly). -/
def add_priorities_section (source_data target_data : List Item) :
    List DocItem × Option String :=
  analyze_and_add_section "Priorities" source_data target_data "name"

/-- `add_resolutions_section` (lines 149-150); defined but never called. -/
def add_resolutions_section (source_data target_data : List Item) :
    List DocItem × Option String :=
  analyze_and_add_section "Resolutions" source_data target_data "name"

/-- `add_roles_section` (lines 152-153); defined but never called: `roles` is
fetched (line 70) but the main section loop omits it. -/
def add_roles_section (source_data target_data : List Item) :
    List DocItem × Option String :=
  analyze_and_add_section "Project Roles" source_data target_data "name"

/-- `add_issuetypes_section` (lines 155-156); defined but never called. -/
def add_issuetypes_section (source_data target_data : List Item) :
    List DocItem × Option String :=
  analyze_and_add_section "Issue Types" source_data target_data "name"

/-- `add_filters_section` (lines 158-175).  The four leading blocks are
appended before the conflict comprehension (line 170) runs, so a `KeyError`
there keeps them. -/
def add_filters_section (source_data target_data : List Item) :
    List DocItem × Option String :=
  let source_count := toString source_data.length
  let target_count := toString target_data.length
  let pre : List DocItem :=
    [DocItem.heading "Filters" 1,
     DocItem.para ("• Number of filters in source instance: " ++ source_count),
     DocItem.para ("• Number of filters in target instance: " ++ target_count),
     DocItem.heading "Filters that have conflicts (same name in the source and target):" 2]
  match conflictNamesE source_data target_data with
  | Except.error e => (pre, some e)
  | Except.ok conflicts =>
    (pre ++ (if conflicts.isEmpty then
        [DocItem.para "No conflicts were identified regarding filters during the assessment."]
      else conflicts.map (fun n => DocItem.para ("• " ++ n))),
     none)

/-- `add_dashboards_section` (lines 177-200): like filters, plus a fixed
limitations block appended after the conflicts (skipped if the conflict
comprehension raises). -/
def add_dashboards_section (source_data target_data : List Item) :
    List DocItem × Option String :=
  let source_count := toString source_data.length
  let target_count := toString target_data.length
  let pre : List DocItem :=
    [DocItem.heading "Dashboards" 1,
     DocItem.para ("• Number of dashboards in source instance: " ++ source_count),
     DocItem.para ("• Number of dashboards in target instance: " ++ target_count),
     DocItem.heading "Dashboards that have conflicts (same name in the source and target):" 2]
  match conflictNamesE source_data target_data with
  | Except.error e => (pre, some e)
  | Except.ok conflicts =>
    (pre ++ (if conflicts.isEmpty then
        [DocItem.para "No conflicts were identified regarding Dashboards during the assessment."]
      else conflicts.map (fun n => DocItem.para ("• " ++ n)))
     ++ [DocItem.heading "Limitations" 2,
         DocItem.para "Since the migration of dashboards is done through REST API, our limitation is directly tied to the lack of necessary APIs for the migration. Currently, for dashboards, we have identified the following limitations:",
         DocItem.para "• Inability to migrate the layout of the dashboards",
         DocItem.para "• Inability to migrate the owner of the dashboard. To work around this limitation, we add the owner as an editor of the dashboard, but the owner will be the user running the script.",
         DocItem.para "• Favorite dashboards of each user will be lost, requiring each user to find their dashboard in the destination instance and set it as a favorite again."],
     none)

/-- `add_custom_fields_section` (lines 203-272).  The heading and counts are
appended before the field dicts (lines 217-218) are built, so a `KeyError`
there keeps them. -/
def add_custom_fields_section (source_data target_data : List CustomField) :
    List DocItem × Option String :=
  let source_count := toString source_data.length
  let target_count := toString target_data.length
  let pre : List DocItem :=
    [DocItem.heading "Custom Fields" 1,
     DocItem.para ("• Number of custom fields in source instance: " ++ source_count),
     DocItem.para ("• Number of custom fields in target instance: " ++ target_count)]
  match customFieldsMapE source_data with
  | Except.error e => (pre, some e)
  | Except.ok source_fields =>
    match customFieldsMapE target_data with
    | Except.error e => (pre, some e)
    | Except.ok target_fields =>
      let additions := cfAdditions source_fields target_fields
      let merges := cfMerges source_fields target_fields
      let non_migratable := cfNonMigratable source_fields
      (pre
       ++ [DocItem.heading "Custom fields that will be added" 2]
       ++ (if additions.isEmpty then
            [DocItem.para "No custom fields will be added."]
          else
            [DocItem.table ["Name", "Source Type"]
              (additions.map (fun p => [p.1, p.2]))])
       ++ [DocItem.heading "Custom fields with the same name on both instances" 2]
       ++ (if merges.isEmpty then
            [DocItem.para "No custom fields have the same name on both instances with different types."]
          else
            [DocItem.table ["Name", "Source Type", "Target Type", "Suggestion"]
              (cfMergeRows source_fields target_fields)])
       ++ [DocItem.heading "Custom fields that will not be migrated" 2]
       ++ (if non_migratable.isEmpty then
            [DocItem.para "No custom fields will not be migrated."]
          else
            [DocItem.table ["Name", "Type"]
              (non_migratable.map (fun p => [p.1, p.2]))]),
       none)

/-- `add_statuses_section` (lines 275-322).  The heading, counts and the
additions heading are appended before the status dicts (line 286) are built,
so a `KeyError` there keeps them. -/
def add_statuses_section (source_data target_data : List Status) :
    List DocItem × Option String :=
  let source_count := toString source_data.length
  let target_count := toString target_data.length
  let pre : List DocItem :=
    [DocItem.heading "Statuses" 1,
     DocItem.para ("• Number of statuses in source instance: " ++ source_count),
     DocItem.para ("• Number of statuses in target instance: " ++ target_count),
     DocItem.heading "Statuses that will be added" 2]
  match statusMapE source_data with
  | Except.error e => (pre, some e)
  | Except.ok source_statuses =>
    match statusMapE target_data with
    | Except.error e => (pre, some e)
    | Except.ok target_statuses =>
      let additions := analyze_additions source_statuses target_statuses
      let conflicts := statusConflicts source_statuses target_statuses
      (pre
       ++ (if additions.isEmpty then
            [DocItem.para "No statuses will be added."]
          else
            [DocItem.table ["Name", "Category"]
              (additions.map (fun p => [p.1, p.2]))])
       ++ [DocItem.heading "Statuses with the same name but different categories" 2]
       ++ (if conflicts.isEmpty then
            [DocItem.para "No statuses have the same name but different categories."]
          else
            [DocItem.table ["Name", "Source Category", "Target Category", "Suggestion"]
              (statusConflictRows source_statuses target_statuses)]),
       none)

/-! ## The main flow -/

/-- The `endpoints` table (lines 66-76). -/
def endpoints : List (String × String) :=
  [("projects", "/rest/api/3/project"),
   ("priorities", "/rest/api/3/priority"),
   ("resolutions", "/rest/api/3/resolution"),
   ("roles", "/rest/api/3/role"),
   ("issuetypes", "/rest/api/3/issuetype"),
   ("customfields", "/rest/api/3/field"),
   ("statuses", "/rest/api/3/status"),
   ("filters", "/rest/api/2/filter/search"),
   ("dashboards", "/rest/api/2/dashboard/search")]

/-- One instance's fetched data, after the filters/dashboards entries are
overwritten by the paginated fetch (lines 79-86).  The `roles` entry is
fetched but never used by a section. -/
structure Snapshot where
  projects : List Item
  priorities : List Item
  resolutions : List Item
  roles : List Item
  issuetypes : List Item
  filters : List Item
  dashboards : List Item
  customfields : List CustomField
  statuses : List Status
deriving DecidableEq

/-- Run the section builders in order with the per-section `try/except`
(lines 374-397): the items a builder appended are kept, a raised error is
logged as `Failed to analyze <title>: <e>`, and the loop continues. -/
def runSections : List (String × (List DocItem × Option String)) →
    List DocItem → List String → List DocItem × List String
  | [], doc, log => (doc, log)
  | (title, (items, err)) :: rest, doc, log =>
    match err with
    | none => runSections rest (doc ++ items) log
    | some e =>
      runSections rest (doc ++ items)
        (log ++ ["Failed to analyze " ++ title ++ ": " ++ e])

/-- The section builds of the main program, in its fixed order (lines 365-397):
the six-entry loop (projects handled by `add_projects_section`, filters and
dashboards by their builders, the rest by `analyze_and_add_section`), then the
custom fields and statuses try blocks with their lowercase log labels. -/
def sectionBuilds (data_source data_target : Snapshot) :
    List (String × (List DocItem × Option String)) :=
  [("Projects", add_projects_section data_source.projects data_target.projects),
   ("Priorities", analyze_and_add_section "Priorities" data_source.priorities data_target.priorities "name"),
   ("Resolutions", analyze_and_add_section "Resolutions" data_source.resolutions data_target.resolutions "name"),
   ("Issue Types", analyze_and_add_section "Issue Types" data_source.issuetypes data_target.issuetypes "name"),
   ("Filters", add_filters_section data_source.filters data_target.filters),
   ("Dashboards", add_dashboards_section data_source.dashboards data_target.dashboards),
   ("custom fields", add_custom_fields_section data_source.customfields data_target.customfields),
   ("statuses", add_statuses_section data_source.statuses data_target.statuses)]

/-- The whole report pass: the document blocks and the error-log lines. -/
def buildReport (data_source data_target : Snapshot) :
    List DocItem × List String :=
  runSections (sectionBuilds data_source data_target) [] []

/-! ## Pagination

A paginated endpoint is modelled as a function from the `startAt` offset to
the JSON body of the response: for filters a `values` list and an `isLast`
flag, for dashboards a `dashboards` list and an `isLast` flag, each key
possibly absent (`.get` with defaults `[]` and `True`, lines 43-44 / 59-60).
The Python `while True:` loop is given fuel; `none` means the fuel ran out
before a response signalled the last page. -/

/-- A response body of `/rest/api/2/filter/search`. -/
structure FilterPage where
  values : Option (List Item)
  isLast : Option Bool

/-- A response body of `/rest/api/2/dashboard`. -/
structure DashboardPage where
  dashboards : Option (List Item)
  isLast : Option Bool

/-- The loop of `search_filters` (lines 38-46): extend with
`data.get('values', [])`, stop when `data.get('isLast', True)`, else advance
`start_at` by the fixed `max_results = 50`. -/
def search_filters_loop (server : Nat → FilterPage) : Nat → Nat → Option (List Item)
  | 0, _ => none
  | fuel + 1, start_at =>
    let data := server start_at
    let page := data.values.getD []
    if data.isLast.getD true then some page
    else (search_filters_loop server fuel (start_at + 50)).map (fun rest => page ++ rest)

/-- `search_filters` (lines 34-47). -/
def search_filters (server : Nat → FilterPage) (fuel : Nat) : Option (List Item) :=
  search_filters_loop server fuel 0

/-- The loop of `search_dashboards` (lines 54-62). -/
def search_dashboards_loop (server : Nat → DashboardPage) : Nat → Nat → Option (List Item)
  | 0, _ => none
  | fuel + 1, start_at =>
    let data := server start_at
    let page := data.dashboards.getD []
    if data.isLast.getD true then some page
    else (search_dashboards_loop server fuel (start_at + 50)).map (fun rest => page ++ rest)

/-- The final comprehension of `search_dashboards` (line 63):
`[dashboard for dashboard in dashboards if dashboard['name'] != 'Default dashboard']`;
`dashboard['name']` raises when absent. -/
def filterNotDefaultE : List Item → Except String (List Item)
  | [] => Except.ok []
  | d :: rest =>
    match dictFind d "name" with
    | none => Except.error "KeyError: name"
    | some n =>
      match filterNotDefaultE rest with
      | Except.error e => Except.error e
      | Except.ok r =>
        Except.ok (if n ≠ "Default dashboard" then d :: r else r)

/-- `search_dashboards` (lines 50-63): the accumulated pages, then the
sentinel filter. -/
def search_dashboards (server : Nat → DashboardPage) (fuel : Nat) :
    Option (Except String (List Item)) :=
  (search_dashboards_loop server fuel 0).map filterNotDefaultE

/-- The `isLast` flag of the response at page index `i` (offset `50 * i`),
with the Python default `True` for a missing key. -/
def filterIsLastAt (server : Nat → FilterPage) (i : Nat) : Bool :=
  (server (50 * i)).isLast.getD true

/-- Dashboard analogue of `filterIsLastAt`. -/
def dashIsLastAt (server : Nat → DashboardPage) (i : Nat) : Bool :=
  (server (50 * i)).isLast.getD true

/-! ## Properties of the reconciliation -/

lemma customFieldsMapE_nodup {l : List CustomField} {m : List (String × String)}
    (h : customFieldsMapE l = Except.ok m) : (dictKeys m).Nodup := by
  unfold customFieldsMapE at h
  split at h
  · exact absurd h (by simp)
  · cases h
    exact dictOfList_keys_nodup _

lemma statusMapE_nodup {l : List Status} {m : List (String × String)}
    (h : statusMapE l = Except.ok m) : (dictKeys m).Nodup := by
  unfold statusMapE at h
  split at h
  · exact absurd h (by simp)
  · cases h
    exact dictOfList_keys_nodup _

lemma itemMapE_nodup {l : List Item} {attr : String} {m : List (String × String)}
    (h : itemMapE l attr = Except.ok m) : (dictKeys m).Nodup := by
  unfold itemMapE at h
  split at h
  · exact absurd h (by simp)
  · cases h
    exact dictOfList_keys_nodup _

lemma value_eq_of_mem_nodup {d : List (String × String)} {k v w : String}
    (hnd : (dictKeys d).Nodup) (hv : (k, v) ∈ d) (hw : (k, w) ∈ d) : v = w := by
  have h1 := dictFind_eq_some_of_mem_nodup hnd hv
  have h2 := dictFind_eq_some_of_mem_nodup hnd hw
  rw [h1] at h2
  exact Option.some.inj h2

/-- C2: a custom field whose schema type is denylisted never appears in the
additions table and always appears in the non-migratable table, whether or not
the name exists in the target. -/
theorem cf_denylist_never_added_always_non_migratable
    (source_data target_data : List CustomField)
    (source_fields target_fields : List (String × String)) (name t : String)
    (hs : customFieldsMapE source_data = Except.ok source_fields)
    (ht : customFieldsMapE target_data = Except.ok target_fields)
    (hmem : (name, t) ∈ source_fields) (hdeny : t ∈ non_migratable_types) :
    name ∉ dictKeys (cfAdditions source_fields target_fields)
      ∧ (name, t) ∈ cfNonMigratable source_fields
      ∧ (∀ rows r, DocItem.table ["Name", "Source Type"] rows ∈
            (add_custom_fields_section source_data target_data).1 →
          r ∈ rows → r.head? ≠ some name)
      ∧ (∃ rows, DocItem.table ["Name", "Type"] rows ∈
            (add_custom_fields_section source_data target_data).1 ∧ [name, t] ∈ rows) := by
  have hnd := customFieldsMapE_nodup hs
  have hnotadd : name ∉ dictKeys (cfAdditions source_fields target_fields) := by
    intro h
    simp only [dictKeys, cfAdditions, List.mem_map, List.mem_filter] at h
    obtain ⟨p, ⟨hp, hpred⟩, hk⟩ := h
    simp only [Bool.and_eq_true, decide_eq_true_eq] at hpred
    have hp2 : (name, p.2) ∈ source_fields := by
      rw [← hk]
      exact hp
    have hpt : p.2 = t := value_eq_of_mem_nodup hnd hp2 hmem
    exact hpred.2 (hpt ▸ hdeny)
  have hnm : (name, t) ∈ cfNonMigratable source_fields :=
    List.mem_filter.2 ⟨hmem, by simp [hdeny]⟩
  refine ⟨hnotadd, hnm, ?_, ?_⟩
  · intro rows r htab hr
    have main : rows =
        (cfAdditions source_fields target_fields).map (fun p => [p.1, p.2]) := by
      by_cases hA : (cfAdditions source_fields target_fields).isEmpty <;>
      by_cases hM : (cfMerges source_fields target_fields).isEmpty <;>
      by_cases hN : (cfNonMigratable source_fields).isEmpty <;>
        simp_all [add_custom_fields_section, hs, ht]
    rw [main] at hr
    obtain ⟨p, hp, rfl⟩ := List.mem_map.1 hr
    intro hh
    simp only [List.head?, Option.some.injEq] at hh
    apply hnotadd
    simp only [dictKeys, List.mem_map]
    exact ⟨p, hp, hh⟩
  · have hnonnil : cfNonMigratable source_fields ≠ [] := by
      intro h
      rw [h] at hnm
      exact List.not_mem_nil _ hnm
    refine ⟨(cfNonMigratable source_fields).map (fun p => [p.1, p.2]), ?_, ?_⟩
    · simp only [add_custom_fields_section, hs, ht, List.append_assoc,
        List.mem_append, List.mem_cons]
      have : (cfNonMigratable source_fields).isEmpty = false := by
        simpa [List.isEmpty_iff] using hnonnil
      rw [this]
      simp
    · exact List.mem_map.2 ⟨(name, t), hnm, rfl⟩

/-- C2 witness: a denylisted `project`-typed field absent from the target. -/
theorem cf_denylist_witness :
    customFieldsMapE [CustomField.mk (some "CF1") (some (Schema.mk (some "project")))] =
        Except.ok [("CF1", "project")]
      ∧ customFieldsMapE ([] : List CustomField) = Except.ok []
      ∧ ("CF1", "project") ∈ [("CF1", "project")]
      ∧ "project" ∈ non_migratable_types
      ∧ ("CF1" ∉ dictKeys (cfAdditions [("CF1", "project")] [])
          ∧ ("CF1", "project") ∈ cfNonMigratable [("CF1", "project")]
          ∧ (∀ rows r, DocItem.table ["Name", "Source Type"] rows ∈
                (add_custom_fields_section
                  [CustomField.mk (some "CF1") (some (Schema.mk (some "project")))] []).1 →
              r ∈ rows → r.head? ≠ some "CF1")
          ∧ (∃ rows, DocItem.table ["Name", "Type"] rows ∈
                (add_custom_fields_section
                  [CustomField.mk (some "CF1") (some (Schema.mk (some "project")))] []).1
              ∧ ["CF1", "project"] ∈ rows)) :=
  ⟨rfl, rfl, by decide, by decide,
    cf_denylist_never_added_always_non_migratable
      [CustomField.mk (some "CF1") (some (Schema.mk (some "project")))] []
      [("CF1", "project")] [] "CF1" "project" rfl rfl (by decide) (by decide)⟩

/-- C9: the denylist only guards the additions table; a denylisted source
field whose name exists in the target with a different schema type still
produces a row in the same-name conflicts table. -/
theorem cf_denylist_still_in_conflicts
    (source_data target_data : List CustomField)
    (source_fields target_fields : List (String × String)) (name t tt : String)
    (hs : customFieldsMapE source_data = Except.ok source_fields)
    (ht : customFieldsMapE target_data = Except.ok target_fields)
    (hmem : (name, t) ∈ source_fields) (hdeny : t ∈ non_migratable_types)
    (htl : dictFind target_fields name = some tt) (hne : t ≠ tt) :
    (name, t) ∈ cfMerges source_fields target_fields
      ∧ [name, t, tt, "Rename source/target or Merge or Delete"] ∈
          cfMergeRows source_fields target_fields
      ∧ DocItem.table ["Name", "Source Type", "Target Type", "Suggestion"]
          (cfMergeRows source_fields target_fields) ∈
          (add_custom_fields_section source_data target_data).1 := by
  have hmerge : (name, t) ∈ cfMerges source_fields target_fields := by
    refine List.mem_filter.2 ⟨hmem, ?_⟩
    simp only [htl]
    simpa using hne
  have hrow : [name, t, tt, "Rename source/target or Merge or Delete"] ∈
      cfMergeRows source_fields target_fields := by
    unfold cfMergeRows
    refine List.mem_map.2 ⟨(name, t), hmerge, ?_⟩
    simp [htl]
  refine ⟨hmerge, hrow, ?_⟩
  have hM : (cfMerges source_fields target_fields).isEmpty = false := by
    rcases h : cfMerges source_fields target_fields with _ | _
    · rw [h] at hmerge
      exact absurd hmerge (List.not_mem_nil _)
    · rfl
  by_cases hA : (cfAdditions source_fields target_fields).isEmpty <;>
  by_cases hN : (cfNonMigratable source_fields).isEmpty <;>
    simp_all [add_custom_fields_section, hs, ht]

/-- C9 witness: a denylisted `project`-typed field whose name exists in the
target as a `string`-typed field. -/
theorem cf_denylist_conflicts_witness :
    customFieldsMapE [CustomField.mk (some "CF1") (some (Schema.mk (some "project")))] =
        Except.ok [("CF1", "project")]
      ∧ customFieldsMapE [CustomField.mk (some "CF1") (some (Schema.mk (some "string")))] =
        Except.ok [("CF1", "string")]
      ∧ ("CF1", "project") ∈ [("CF1", "project")]
      ∧ "project" ∈ non_migratable_types
      ∧ dictFind [("CF1", "string")] "CF1" = some "string"
      ∧ "project" ≠ "string"
      ∧ (("CF1", "project") ∈ cfMerges [("CF1", "project")] [("CF1", "string")]
          ∧ ["CF1", "project", "string", "Rename source/target or Merge or Delete"] ∈
              cfMergeRows [("CF1", "project")] [("CF1", "string")]
          ∧ DocItem.table ["Name", "Source Type", "Target Type", "Suggestion"]
              (cfMergeRows [("CF1", "project")] [("CF1", "string")]) ∈
              (add_custom_fields_section
                [CustomField.mk (some "CF1") (some (Schema.mk (some "project")))]
                [CustomField.mk (some "CF1") (some (Schema.mk (some "string")))]).1) :=
  ⟨rfl, rfl, by decide, by decide, by decide, by decide,
    cf_denylist_still_in_conflicts
      [CustomField.mk (some "CF1") (some (Schema.mk (some "project")))]
      [CustomField.mk (some "CF1") (some (Schema.mk (some "string")))]
      [("CF1", "project")] [("CF1", "string")] "CF1" "project" "string"
      rfl rfl (by decide) (by decide) (by decide) (by decide)⟩

/-- C3: a status name on both sides with identical category names yields no
conflict entry; with different category names it yields exactly one entry,
carrying the source and the target category. -/
theorem status_conflict_iff_category_differs
    (source_data target_data : List Status)
    (source_statuses target_statuses : List (String × String))
    (name sc tc : String)
    (hs : statusMapE source_data = Except.ok source_statuses)
    (ht : statusMapE target_data = Except.ok target_statuses)
    (hsl : dictFind source_statuses name = some sc)
    (htl : dictFind target_statuses name = some tc) :
    (sc = tc → ∀ p ∈ statusConflicts source_statuses target_statuses, p.1 ≠ name)
      ∧ (sc ≠ tc →
          (statusConflicts source_statuses target_statuses).filter
              (fun p => decide (p.1 = name)) = [(name, sc)]
            ∧ (statusConflictRows source_statuses target_statuses).filter
              (fun r => decide (r.head? = some name)) =
                [[name, sc, tc, "Change category or Merge"]]
            ∧ DocItem.table ["Name", "Source Category", "Target Category", "Suggestion"]
                (statusConflictRows source_statuses target_statuses) ∈
                (add_statuses_section source_data target_data).1) := by
  have hnd := statusMapE_nodup hs
  have hmem : (name, sc) ∈ source_statuses := mem_of_dictFind_eq_some hsl
  constructor
  · intro heq p hp hpn
    have hps : p ∈ source_statuses := List.mem_filter.1 hp |>.1
    have hpred := List.mem_filter.1 hp |>.2
    have hp2 : (name, p.2) ∈ source_statuses := by
      rw [← hpn]
      exact hps
    have hpv : p.2 = sc := value_eq_of_mem_nodup hnd hp2 hmem
    simp only [hpn, htl, decide_eq_true_eq] at hpred
    exact hpred (by rw [hpv, heq])
  · intro hne
    have hconf : (name, sc) ∈ statusConflicts source_statuses target_statuses := by
      refine List.mem_filter.2 ⟨hmem, ?_⟩
      simp only [htl]
      simpa using hne
    have hcnd : (dictKeys (statusConflicts source_statuses target_statuses)).Nodup :=
      dictKeys_filter_nodup _ _ hnd
    have hsingle : (statusConflicts source_statuses target_statuses).filter
        (fun p => decide (p.1 = name)) = [(name, sc)] :=
      filter_keyEq_singleton hcnd hconf
    refine ⟨hsingle, ?_, ?_⟩
    · unfold statusConflictRows
      rw [List.filter_map]
      have hpred : ∀ p ∈ statusConflicts source_statuses target_statuses,
          ((fun r => decide (r.head? = some name)) ∘
            (fun p : String × String =>
              [p.1, p.2, (dictFind target_statuses p.1).getD "",
                "Change category or Merge"])) p = decide (p.1 = name) := by
        intro p _
        simp [Function.comp]
      rw [List.filter_congr hpred, hsingle]
      simp [htl]
    · have hE : (statusConflicts source_statuses target_statuses).isEmpty = false := by
        rcases h : statusConflicts source_statuses target_statuses with _ | _
        · rw [h] at hconf
          exact absurd hconf (List.not_mem_nil _)
        · rfl
      by_cases hA : (analyze_additions source_statuses target_statuses).isEmpty <;>
        simp_all [add_statuses_section, hs, ht]

/-- C3 witness: status `Open` with category `NEW` in the source and category
`INDETERMINATE` in the target. -/
theorem status_conflict_witness :
    statusMapE [Status.mk (some "Open") (some (StatusCategory.mk (some "NEW")))] =
        Except.ok [("Open", "NEW")]
      ∧ statusMapE [Status.mk (some "Open") (some (StatusCategory.mk (some "INDETERMINATE")))] =
        Except.ok [("Open", "INDETERMINATE")]
      ∧ dictFind [("Open", "NEW")] "Open" = some "NEW"
      ∧ dictFind [("Open", "INDETERMINATE")] "Open" = some "INDETERMINATE"
      ∧ ("NEW" ≠ "INDETERMINATE")
      ∧ (("NEW" = "INDETERMINATE" →
            ∀ p ∈ statusConflicts [("Open", "NEW")] [("Open", "INDETERMINATE")],
              p.1 ≠ "Open")
          ∧ ("NEW" ≠ "INDETERMINATE" →
              (statusConflicts [("Open", "NEW")] [("Open", "INDETERMINATE")]).filter
                  (fun p => decide (p.1 = "Open")) = [("Open", "NEW")]
                ∧ (statusConflictRows [("Open", "NEW")] [("Open", "INDETERMINATE")]).filter
                  (fun r => decide (r.head? = some "Open")) =
                    [["Open", "NEW", "INDETERMINATE", "Change category or Merge"]]
                ∧ DocItem.table ["Name", "Source Category", "Target Category", "Suggestion"]
                    (statusConflictRows [("Open", "NEW")] [("Open", "INDETERMINATE")]) ∈
                    (add_statuses_section
                      [Status.mk (some "Open") (some (StatusCategory.mk (some "NEW")))]
                      [Status.mk (some "Open") (some (StatusCategory.mk (some "INDETERMINATE")))]).1)) :=
  ⟨rfl, rfl, by decide, by decide, by decide,
    status_conflict_iff_category_differs
      [Status.mk (some "Open") (some (StatusCategory.mk (some "NEW")))]
      [Status.mk (some "Open") (some (StatusCategory.mk (some "INDETERMINATE")))]
      [("Open", "NEW")] [("Open", "INDETERMINATE")] "Open" "NEW" "INDETERMINATE"
      rfl rfl (by decide) (by decide)⟩

lemma sublist_join_of_mem {α : Type} {l : List α} {L : List (List α)}
    (h : l ∈ L) : l.Sublist L.join := by
  induction L with
  | nil => cases h
  | cons x xs ih =>
    rcases List.mem_cons.1 h with rfl | hm
    · simpa using List.sublist_append_left l xs.join
    · simpa using (ih hm).trans (List.sublist_append_right x xs.join)

lemma runSections_eq : ∀ (l : List (String × (List DocItem × Option String)))
    (doc : List DocItem) (log : List String),
    runSections l doc log =
      (doc ++ (l.map (fun p => p.2.1)).join,
       log ++ l.filterMap (fun p => Option.map
         (fun e => "Failed to analyze " ++ p.1 ++ ": " ++ e) p.2.2))
  | [], doc, log => by simp [runSections]
  | (title, (items, none)) :: rest, doc, log => by
    simp only [runSections]
    rw [runSections_eq rest]
    simp [List.filterMap_cons]
  | (title, (items, some e)) :: rest, doc, log => by
    simp only [runSections]
    rw [runSections_eq rest]
    simp [List.filterMap_cons]

/-- C5: a section builder that raises is caught at the section boundary and
logged with the section title and the error detail, while every section that
builds cleanly still has its blocks appended to the document — one failing
section never aborts the report. -/
theorem section_failure_is_isolated
    (data_source data_target : Snapshot) (title : String)
    (items : List DocItem) (err : Option String)
    (hmem : (title, (items, err)) ∈ sectionBuilds data_source data_target) :
    (∀ e, err = some e →
        ("Failed to analyze " ++ title ++ ": " ++ e) ∈
          (buildReport data_source data_target).2)
      ∧ (err = none →
          items.Sublist (buildReport data_source data_target).1) := by
  constructor
  · intro e herr
    subst herr
    unfold buildReport
    rw [runSections_eq]
    exact List.mem_append_right _
      (List.mem_filterMap.2 ⟨(title, (items, some e)), hmem, rfl⟩)
  · intro herr
    subst herr
    unfold buildReport
    rw [runSections_eq]
    have hmm : items ∈ (sectionBuilds data_source data_target).map
        (fun p => p.2.1) :=
      List.mem_map.2 ⟨(title, (items, none)), hmem, rfl⟩
    exact (sublist_join_of_mem hmm).trans (List.sublist_append_right [] _)

/-- A source snapshot whose priorities record lacks the `name` attribute (so
the Priorities section raises) and whose statuses build cleanly. -/
def witnessSnapshotSource : Snapshot :=
  Snapshot.mk [] [[("noname", "x")]] [] [] [] [] [] []
    [Status.mk (some "Done") (some (StatusCategory.mk (some "DONE")))]

/-- An all-empty target snapshot. -/
def witnessSnapshotTarget : Snapshot :=
  Snapshot.mk [] [] [] [] [] [] [] [] []

/-- C5 witness: with the snapshots above, the Priorities section fails and is
logged, while the statuses section's blocks still reach the document. -/
theorem section_failure_witness :
    (("Priorities", (([] : List DocItem), some "KeyError: name")) ∈
        sectionBuilds witnessSnapshotSource witnessSnapshotTarget)
      ∧ (("statuses",
          ([DocItem.heading "Statuses" 1,
            DocItem.para "• Number of statuses in source instance: 1",
            DocItem.para "• Number of statuses in target instance: 0",
            DocItem.heading "Statuses that will be added" 2,
            DocItem.table ["Name", "Category"] [["Done", "DONE"]],
            DocItem.heading "Statuses with the same name but different categories" 2,
            DocItem.para "No statuses have the same name but different categories."],
           (none : Option String))) ∈
        sectionBuilds witnessSnapshotSource witnessSnapshotTarget)
      ∧ "Failed to analyze Priorities: KeyError: name" ∈
          (buildReport witnessSnapshotSource witnessSnapshotTarget).2
      ∧ List.Sublist
          [DocItem.heading "Statuses" 1,
            DocItem.para "• Number of statuses in source instance: 1",
            DocItem.para "• Number of statuses in target instance: 0",
            DocItem.heading "Statuses that will be added" 2,
            DocItem.table ["Name", "Category"] [["Done", "DONE"]],
            DocItem.heading "Statuses with the same name but different categories" 2,
            DocItem.para "No statuses have the same name but different categories."]
          (buildReport witnessSnapshotSource witnessSnapshotTarget).1 :=
  ⟨by decide, by decide,
    (section_failure_is_isolated witnessSnapshotSource witnessSnapshotTarget
      "Priorities" [] (some "KeyError: name") (by decide)).1 "KeyError: name" rfl,
    (section_failure_is_isolated witnessSnapshotSource witnessSnapshotTarget
      "statuses"
      [DocItem.heading "Statuses" 1,
        DocItem.para "• Number of statuses in source instance: 1",
        DocItem.para "• Number of statuses in target instance: 0",
        DocItem.heading "Statuses that will be added" 2,
        DocItem.table ["Name", "Category"] [["Done", "DONE"]],
        DocItem.heading "Statuses with the same name but different categories" 2,
        DocItem.para "No statuses have the same name but different categories."]
      none (by decide)).2 rfl⟩

lemma search_filters_loop_spec : ∀ (fuel j k : Nat) (server : Nat → FilterPage),
    j ≤ k → filterIsLastAt server k = true →
    (∀ i, j ≤ i → i < k → filterIsLastAt server i = false) →
    k - j < fuel →
    search_filters_loop server fuel (50 * j) =
      some ((List.range' j (k - j + 1)).map
        (fun i => (server (50 * i)).values.getD [])).join := by
  intro fuel
  induction fuel with
  | zero =>
    intro j k server _ _ _ hf
    exact absurd hf (Nat.not_lt_zero _)
  | succ fuel ih =>
    intro j k server hjk hlast hmid hf
    by_cases hj : filterIsLastAt server j = true
    · have hjeq : j = k := by
        by_contra hne
        have hlt : j < k := lt_of_le_of_ne hjk hne
        rw [hmid j le_rfl hlt] at hj
        exact Bool.false_ne_true hj
      subst hjeq
      unfold filterIsLastAt at hj
      simp only [search_filters_loop, hj, if_true, Nat.sub_self]
      have hr : List.range' j 1 = [j] := rfl
      rw [hr]
      simp
    · have hj2 : filterIsLastAt server j = false := by
        simpa using hj
      have hlt : j < k := by
        rcases Nat.lt_or_ge j k with h | h
        · exact h
        · rw [le_antisymm hjk h] at hj2
          rw [hj2] at hlast
          exact absurd hlast Bool.false_ne_true
      unfold filterIsLastAt at hj2
      simp only [search_filters_loop, hj2, if_false]
      have harith : 50 * j + 50 = 50 * (j + 1) := by ring
      rw [harith,
        ih (j + 1) k server hlt hlast (fun i h1 h2 => hmid i (by omega) h2)
          (by omega)]
      have hrange : List.range' j (k - j + 1) =
          j :: List.range' (j + 1) (k - (j + 1) + 1) := by
        have h1 : k - j + 1 = (k - (j + 1) + 1) + 1 := by omega
        rw [h1]
        rfl
      rw [hrange]
      simp

lemma search_dashboards_loop_spec : ∀ (fuel j k : Nat) (server : Nat → DashboardPage),
    j ≤ k → dashIsLastAt server k = true →
    (∀ i, j ≤ i → i < k → dashIsLastAt server i = false) →
    k - j < fuel →
    search_dashboards_loop server fuel (50 * j) =
      some ((List.range' j (k - j + 1)).map
        (fun i => (server (50 * i)).dashboards.getD [])).join := by
  intro fuel
  induction fuel with
  | zero =>
    intro j k server _ _ _ hf
    exact absurd hf (Nat.not_lt_zero _)
  | succ fuel ih =>
    intro j k server hjk hlast hmid hf
    by_cases hj : dashIsLastAt server j = true
    · have hjeq : j = k := by
        by_contra hne
        have hlt : j < k := lt_of_le_of_ne hjk hne
        rw [hmid j le_rfl hlt] at hj
        exact Bool.false_ne_true hj
      subst hjeq
      unfold dashIsLastAt at hj
      simp only [search_dashboards_loop, hj, if_true, Nat.sub_self]
      have hr : List.range' j 1 = [j] := rfl
      rw [hr]
      simp
    · have hj2 : dashIsLastAt server j = false := by
        simpa using hj
      have hlt : j < k := by
        rcases Nat.lt_or_ge j k with h | h
        · exact h
        · rw [le_antisymm hjk h] at hj2
          rw [hj2] at hlast
          exact absurd hlast Bool.false_ne_true
      unfold dashIsLastAt at hj2
      simp only [search_dashboards_loop, hj2, if_false]
      have harith : 50 * j + 50 = 50 * (j + 1) := by ring
      rw [harith,
        ih (j + 1) k server hlt hlast (fun i h1 h2 => hmid i (by omega) h2)
          (by omega)]
      have hrange : List.range' j (k - j + 1) =
          j :: List.range' (j + 1) (k - (j + 1) + 1) := by
        have h1 : k - j + 1 = (k - (j + 1) + 1) + 1 := by omega
        rw [h1]
        rfl
      rw [hrange]
      simp

/-- C7: when some response signals the last page, both paginated fetch loops
terminate at the first such response, having requested offsets 0, 50, 100, …,
and return the pages' record lists concatenated in page order (dashboards then
drop the sentinel entry from that concatenation). -/
theorem pagination_terminates_and_concatenates
    (fserver : Nat → FilterPage) (dserver : Nat → DashboardPage)
    (k fuel kd fueld : Nat)
    (hk : filterIsLastAt fserver k = true)
    (hmid : ∀ i, i < k → filterIsLastAt fserver i = false)
    (hfuel : k < fuel)
    (hkd : dashIsLastAt dserver kd = true)
    (hmidd : ∀ i, i < kd → dashIsLastAt dserver i = false)
    (hfueld : kd < fueld) :
    search_filters fserver fuel =
        some ((List.range (k + 1)).map
          (fun i => (fserver (50 * i)).values.getD [])).join
      ∧ search_dashboards_loop dserver fueld 0 =
        some ((List.range (kd + 1)).map
          (fun i => (dserver (50 * i)).dashboards.getD [])).join
      ∧ search_dashboards dserver fueld =
        some (filterNotDefaultE
          ((List.range (kd + 1)).map
            (fun i => (dserver (50 * i)).dashboards.getD [])).join) := by
  have hfl := search_filters_loop_spec fuel 0 k fserver (Nat.zero_le _) hk
    (fun i _ h2 => hmid i h2) (by omega)
  have hdl := search_dashboards_loop_spec fueld 0 kd dserver (Nat.zero_le _) hkd
    (fun i _ h2 => hmidd i h2) (by omega)
  rw [Nat.mul_zero] at hfl hdl
  rw [Nat.sub_zero] at hfl hdl
  rw [List.range_eq_range']
  refine ⟨hfl, ?_, ?_⟩
  · rw [List.range_eq_range']
    exact hdl
  · unfold search_dashboards
    rw [hdl, List.range_eq_range']
    rfl

/-- A two-page filter endpoint: the page at offset 0 is not last, the page at
offset 50 is. -/
def witnessFilterServer : Nat → FilterPage := fun n =>
  if n = 0 then FilterPage.mk (some [[("name", "F1")]]) (some false)
  else FilterPage.mk (some [[("name", "F2")]]) (some true)

/-- A two-page dashboard endpoint whose first page contains the sentinel
`Default dashboard` entry. -/
def witnessDashServer : Nat → DashboardPage := fun n =>
  if n = 0 then
    DashboardPage.mk (some [[("name", "Default dashboard")], [("name", "D1")]])
      (some false)
  else DashboardPage.mk (some [[("name", "D2")]]) (some true)

/-- C7 witness: two pages on each endpoint, last-page flag on page 1. -/
theorem pagination_witness :
    filterIsLastAt witnessFilterServer 1 = true
      ∧ (∀ i, i < 1 → filterIsLastAt witnessFilterServer i = false)
      ∧ dashIsLastAt witnessDashServer 1 = true
      ∧ (∀ i, i < 1 → dashIsLastAt witnessDashServer i = false)
      ∧ (search_filters witnessFilterServer 2 =
            some ((List.range 2).map
              (fun i => (witnessFilterServer (50 * i)).values.getD [])).join
          ∧ search_dashboards_loop witnessDashServer 2 0 =
            some ((List.range 2).map
              (fun i => (witnessDashServer (50 * i)).dashboards.getD [])).join
          ∧ search_dashboards witnessDashServer 2 =
            some (filterNotDefaultE
              ((List.range 2).map
                (fun i => (witnessDashServer (50 * i)).dashboards.getD [])).join)) :=
  ⟨by decide, by decide, by decide, by decide,
    pagination_terminates_and_concatenates witnessFilterServer witnessDashServer
      1 2 1 2 (by decide) (by decide) (by decide) (by decide) (by decide)
      (by decide)⟩

/-- C10: a response that omits the `isLast` key is treated as the last page
(the `.get` default is `True`), so each loop returns right after that page
instead of looping on or failing. -/
theorem missing_isLast_treated_as_last
    (fserver : Nat → FilterPage) (dserver : Nat → DashboardPage)
    (fuel fueld start startd : Nat)
    (hf : (fserver start).isLast = none)
    (hd : (dserver startd).isLast = none) :
    search_filters_loop fserver (fuel + 1) start =
        some ((fserver start).values.getD [])
      ∧ search_dashboards_loop dserver (fueld + 1) startd =
        some ((dserver startd).dashboards.getD []) := by
  constructor
  · simp [search_filters_loop, hf]
  · simp [search_dashboards_loop, hd]

/-- A one-page filter endpoint whose response has no `isLast` key. -/
def witnessFilterServerNoFlag : Nat → FilterPage := fun _ =>
  FilterPage.mk (some [[("name", "F1")]]) none

/-- A one-page dashboard endpoint whose response has no `isLast` key. -/
def witnessDashServerNoFlag : Nat → DashboardPage := fun _ =>
  DashboardPage.mk (some [[("name", "D1")]]) none

/-- C10 witness: responses without the flag stop the loops immediately. -/
theorem missing_isLast_witness :
    (witnessFilterServerNoFlag 0).isLast = none
      ∧ (witnessDashServerNoFlag 0).isLast = none
      ∧ (search_filters_loop witnessFilterServerNoFlag 1 0 =
            some ((witnessFilterServerNoFlag 0).values.getD [])
          ∧ search_dashboards_loop witnessDashServerNoFlag 1 0 =
            some ((witnessDashServerNoFlag 0).dashboards.getD [])) :=
  ⟨rfl, rfl,
    missing_isLast_treated_as_last witnessFilterServerNoFlag
      witnessDashServerNoFlag 0 0 0 0 rfl rfl⟩

lemma heading1_projects {s t : List Item} {x : String}
    (h : DocItem.heading x 1 ∈ (add_projects_section s t).1) : x = "Projects" := by
  unfold add_projects_section at h
  split at h
  · simp at h
  · split at h
    · simp at h
    · dsimp only at h
      split at h <;> split at h <;> simp_all

lemma heading1_analyze {title : String} {s t : List Item} {a x : String}
    (h : DocItem.heading x 1 ∈ (analyze_and_add_section title s t a).1) :
    x = title := by
  unfold analyze_and_add_section at h
  split at h
  · simp at h
  · split at h
    · simp at h
    · dsimp only at h
      split at h <;> simp_all

lemma heading1_filters {s t : List Item} {x : String}
    (h : DocItem.heading x 1 ∈ (add_filters_section s t).1) : x = "Filters" := by
  unfold add_filters_section at h
  split at h
  · simp_all
  · dsimp only at h
    split at h <;> simp_all

lemma heading1_dashboards {s t : List Item} {x : String}
    (h : DocItem.heading x 1 ∈ (add_dashboards_section s t).1) :
    x = "Dashboards" := by
  unfold add_dashboards_section at h
  split at h
  · simp_all
  · dsimp only at h
    split at h <;> simp_all

lemma heading1_custom_fields {s t : List CustomField} {x : String}
    (h : DocItem.heading x 1 ∈ (add_custom_fields_section s t).1) :
    x = "Custom Fields" := by
  unfold add_custom_fields_section at h
  split at h
  · simp_all
  · split at h
    · simp_all
    · dsimp only at h
      split at h <;> split at h <;> split at h <;> simp_all

lemma heading1_statuses {s t : List Status} {x : String}
    (h : DocItem.heading x 1 ∈ (add_statuses_section s t).1) : x = "Statuses" := by
  unfold add_statuses_section at h
  split at h
  · simp_all
  · split at h
    · simp_all
    · dsimp only at h
      split at h <;> split at h <;> simp_all

lemma heading1_report {ds dt : Snapshot} {x : String}
    (h : DocItem.heading x 1 ∈ (buildReport ds dt).1) :
    x ∈ ["Projects", "Priorities", "Resolutions", "Issue Types", "Filters",
      "Dashboards", "Custom Fields", "Statuses"] := by
  unfold buildReport at h
  rw [runSections_eq] at h
  simp only [List.nil_append] at h
  obtain ⟨l, hl, hx⟩ := List.mem_join.1 h
  obtain ⟨p, hp, rfl⟩ := List.mem_map.1 hl
  simp only [sectionBuilds, List.mem_cons, List.not_mem_nil, or_false] at hp
  rcases hp with rfl | rfl | rfl | rfl | rfl | rfl | rfl | rfl
  · rw [heading1_projects hx]
    decide
  · rw [heading1_analyze hx]
    decide
  · rw [heading1_analyze hx]
    decide
  · rw [heading1_analyze hx]
    decide
  · rw [heading1_filters hx]
    decide
  · rw [heading1_dashboards hx]
    decide
  · rw [heading1_custom_fields hx]
    decide
  · rw [heading1_statuses hx]
    decide

/-- C8: the report never contains a Project Roles section — every level-1
heading in the document is one of the eight built titles, which exclude
`Project Roles`, even though `roles` is among the fetched endpoints and
`add_roles_section` exists. -/
theorem no_project_roles_section (ds dt : Snapshot) (x : String)
    (h : DocItem.heading x 1 ∈ (buildReport ds dt).1) :
    x ∈ ["Projects", "Priorities", "Resolutions", "Issue Types", "Filters",
        "Dashboards", "Custom Fields", "Statuses"]
      ∧ DocItem.heading "Project Roles" 1 ∉ (buildReport ds dt).1
      ∧ ("roles", "/rest/api/3/role") ∈ endpoints :=
  ⟨heading1_report h,
    fun hroles => absurd (heading1_report hroles) (by decide),
    by decide⟩

/-- An all-empty snapshot. -/
def emptySnapshot : Snapshot := Snapshot.mk [] [] [] [] [] [] [] [] []

/-- C8 witness: the empty report contains the Projects heading, and no
Project Roles heading. -/
theorem no_project_roles_witness :
    DocItem.heading "Projects" 1 ∈ (buildReport emptySnapshot emptySnapshot).1
      ∧ ("Projects" ∈ ["Projects", "Priorities", "Resolutions", "Issue Types",
            "Filters", "Dashboards", "Custom Fields", "Statuses"]
          ∧ DocItem.heading "Project Roles" 1 ∉
              (buildReport emptySnapshot emptySnapshot).1
          ∧ ("roles", "/rest/api/3/role") ∈ endpoints) :=
  ⟨by decide,
    no_project_roles_section emptySnapshot emptySnapshot "Projects" (by decide)⟩

/-- C6 counterexample: a status record with an absent `statusCategory` makes
the statuses section fail with a `KeyError` caught at the section boundary —
no placeholder is substituted for it. -/
theorem missing_status_category_counterexample :
    (add_statuses_section [Status.mk (some "Open") none] []).2 =
        some "KeyError: statusCategory"
      ∧ (add_statuses_section [Status.mk (some "Open") none] []).1 =
        [DocItem.heading "Statuses" 1,
         DocItem.para "• Number of statuses in source instance: 1",
         DocItem.para "• Number of statuses in target instance: 0",
         DocItem.heading "Statuses that will be added" 2] := by
  exact ⟨rfl, rfl⟩

lemma itemPairsE_mem : ∀ {l : List Item} {attr : String}
    {ps : List (String × String)}, itemPairsE l attr = Except.ok ps →
    ∀ {it : Item} {key : String}, it ∈ l → dictFind it attr = some key →
    (key, getAttrD it "description" "No description") ∈ ps := by
  intro l
  induction l with
  | nil =>
    intro attr ps _ it key hmem _
    exact absurd hmem (List.not_mem_nil _)
  | cons item rest ih =>
    intro attr ps hps it key hmem hkey
    unfold itemPairsE at hps
    rcases hga : getAttrE item attr with e | k0
    · rw [hga] at hps
      exact absurd hps (by simp)
    · rcases hrest : itemPairsE rest attr with e | r
      · rw [hga, hrest] at hps
        exact absurd hps (by simp)
      · rw [hga, hrest] at hps
        cases hps
        rcases List.mem_cons.1 hmem with rfl | hm
        · unfold getAttrE at hga
          rw [hkey] at hga
          cases hga
          exact List.mem_cons_self _ _
        · exact List.mem_cons_of_mem _ (ih hrest hm hkey)

lemma customFieldPairsE_mem : ∀ {l : List CustomField}
    {cps : List (String × String)}, customFieldPairsE l = Except.ok cps →
    ∀ {f : CustomField} {n : String}, f ∈ l → f.name = some n →
    (n, get_field_type f) ∈ cps := by
  intro l
  induction l with
  | nil =>
    intro cps _ f n hmem _
    exact absurd hmem (List.not_mem_nil _)
  | cons field rest ih =>
    intro cps hps f n hmem hname
    unfold customFieldPairsE at hps
    rcases hfield : field.name with _ | n0
    · rw [hfield] at hps
      exact absurd hps (by simp)
    · rcases hrest : customFieldPairsE rest with e | r
      · rw [hfield, hrest] at hps
        exact absurd hps (by simp)
      · rw [hfield, hrest] at hps
        cases hps
        rcases List.mem_cons.1 hmem with rfl | hm
        · rw [hname] at hfield
          cases hfield
          exact List.mem_cons_self _ _
        · exact List.mem_cons_of_mem _ (ih hrest hm hname)

/-- C6 amended: fields read with `.get` defaults are placeholder-substituted —
an absent description becomes `No description` in the generic maps, an absent
custom-field schema type becomes `N/A` — but an absent status category is not
substituted: it raises and the statuses section fails (caught at the section
boundary). -/
theorem missing_field_handling
    (it : Item) (l : List Item) (attr key : String) (ps : List (String × String))
    (f : CustomField) (n : String) (lcf : List CustomField)
    (cps : List (String × String))
    (s : Status) (m : String) (rest tst : List Status)
    (hit : it ∈ l) (hkey : dictFind it attr = some key)
    (hdesc : dictFind it "description" = none)
    (hps : itemPairsE l attr = Except.ok ps)
    (hf : f ∈ lcf) (hfn : f.name = some n) (hfs : f.schema = none)
    (hcps : customFieldPairsE lcf = Except.ok cps)
    (hsn : s.name = some m) (hsc : s.statusCategory = none) :
    (key, "No description") ∈ ps
      ∧ (n, "N/A") ∈ cps
      ∧ (add_statuses_section (s :: rest) tst).2 =
          some "KeyError: statusCategory" := by
  refine ⟨?_, ?_, ?_⟩
  · have h := itemPairsE_mem hps hit hkey
    rw [getAttrD, hdesc] at h
    exact h
  · have h := customFieldPairsE_mem hcps hf hfn
    rw [get_field_type, hfs] at h
    exact h
  · have hpairs : statusPairsE (s :: rest) =
        Except.error "KeyError: statusCategory" := by
      unfold statusPairsE
      rw [hsn, hsc]
    have hmap : statusMapE (s :: rest) =
        Except.error "KeyError: statusCategory" := by
      unfold statusMapE
      rw [hpairs]
    simp only [add_statuses_section, hmap]

/-- C6 witness: an item with no description, a custom field with no schema,
and a status with no category. -/
theorem missing_field_witness :
    ([("name", "P1")] : Item) ∈ [[("name", "P1")]]
      ∧ dictFind [("name", "P1")] "name" = some "P1"
      ∧ dictFind [("name", "P1")] "description" = none
      ∧ itemPairsE [[("name", "P1")]] "name" =
          Except.ok [("P1", "No description")]
      ∧ CustomField.mk (some "CF") none ∈ [CustomField.mk (some "CF") none]
      ∧ (CustomField.mk (some "CF") none).name = some "CF"
      ∧ (CustomField.mk (some "CF") none).schema = none
      ∧ customFieldPairsE [CustomField.mk (some "CF") none] =
          Except.ok [("CF", "N/A")]
      ∧ (Status.mk (some "Open") none).name = some "Open"
      ∧ (Status.mk (some "Open") none).statusCategory = none
      ∧ (("P1", "No description") ∈ [("P1", "No description")]
          ∧ ("CF", "N/A") ∈ [("CF", "N/A")]
          ∧ (add_statuses_section [Status.mk (some "Open") none] []).2 =
              some "KeyError: statusCategory") :=
  ⟨by decide, rfl, rfl, rfl, by decide, rfl, rfl, rfl, rfl, rfl,
    missing_field_handling [("name", "P1")] [[("name", "P1")]] "name" "P1"
      [("P1", "No description")] (CustomField.mk (some "CF") none) "CF"
      [CustomField.mk (some "CF") none] [("CF", "N/A")]
      (Status.mk (some "Open") none) "Open" [] []
      (by decide) rfl rfl rfl (by decide) rfl rfl rfl rfl rfl⟩

/-- C4 counterexample: with both snapshots empty, the generic section's merges
result set is empty, yet the section renders a header-only merges table
(lines 354-362 have no else branch) instead of an explanatory sentence. -/
theorem empty_merges_table_counterexample :
    analyze_merges [] [] = []
      ∧ DocItem.table ["Name", "Description"] [] ∈
          (analyze_and_add_section "Priorities" [] [] "name").1 := by
  exact ⟨rfl, by decide⟩

lemma noEmptyTable_projects (s t : List Item) :
    noEmptyTable (add_projects_section s t).1 := by
  unfold noEmptyTable add_projects_section
  split
  · simp
  · split
    · simp
    · dsimp only
      split <;> split <;>
        simp_all [isEmptyTable, List.isEmpty_iff, List.map_eq_nil,
          List.forall_mem_cons, List.forall_mem_append]

lemma noEmptyTable_filters (s t : List Item) :
    noEmptyTable (add_filters_section s t).1 := by
  unfold noEmptyTable add_filters_section
  split
  · simp [isEmptyTable, List.forall_mem_cons]
  · dsimp only
    split <;>
      simp_all [isEmptyTable, List.forall_mem_cons, List.forall_mem_append,
        List.forall_mem_map]

lemma noEmptyTable_dashboards (s t : List Item) :
    noEmptyTable (add_dashboards_section s t).1 := by
  unfold noEmptyTable add_dashboards_section
  split
  · simp [isEmptyTable, List.forall_mem_cons]
  · dsimp only
    split
    · simp_all [isEmptyTable, List.forall_mem_cons, List.forall_mem_append,
        List.forall_mem_map]
    · simp_all [isEmptyTable, List.forall_mem_cons, List.forall_mem_append,
        List.forall_mem_map]
      rintro a (⟨n, _, rfl⟩ | rfl | rfl | rfl | rfl | rfl) <;> rfl

lemma noEmptyTable_custom_fields (s t : List CustomField) :
    noEmptyTable (add_custom_fields_section s t).1 := by
  unfold noEmptyTable add_custom_fields_section
  split
  · simp [isEmptyTable, List.forall_mem_cons]
  · split
    · simp [isEmptyTable, List.forall_mem_cons]
    · dsimp only
      split <;> split <;> split <;>
        simp_all [isEmptyTable, List.isEmpty_iff, List.map_eq_nil,
          List.forall_mem_cons, List.forall_mem_append, cfMergeRows]

lemma noEmptyTable_statuses (s t : List Status) :
    noEmptyTable (add_statuses_section s t).1 := by
  unfold noEmptyTable add_statuses_section
  split
  · simp [isEmptyTable, List.forall_mem_cons]
  · split
    · simp [isEmptyTable, List.forall_mem_cons]
    · dsimp only
      split <;> split <;>
        simp_all [isEmptyTable, List.isEmpty_iff, List.map_eq_nil,
          List.forall_mem_cons, List.forall_mem_append, statusConflictRows]

/-- C4 amended: empty result sets render as a single explanatory sentence and
no section ever renders a header-only table, EXCEPT that (a) the merges
category of the generic sections always renders its table, header-only when
merges is empty, and (b) the conflicts category of the Projects section
renders nothing at all (no sentence, no table) when empty. -/
theorem empty_rendering_amended
    (ps pt fi ti da ta : List Item) (scf tcf : List CustomField)
    (sst tst : List Status) (title key_attr : String) (gs gt : List Item)
    (smap tmap psm ptm csf ctf ssm tsm : List (String × String))
    (fconf dconf : List String)
    (hgs : itemMapE gs key_attr = Except.ok smap)
    (hgt : itemMapE gt key_attr = Except.ok tmap)
    (hps : itemMapE ps "key" = Except.ok psm)
    (hpt : itemMapE pt "key" = Except.ok ptm)
    (hcs : customFieldsMapE scf = Except.ok csf)
    (hct : customFieldsMapE tcf = Except.ok ctf)
    (hss : statusMapE sst = Except.ok ssm)
    (hst : statusMapE tst = Except.ok tsm)
    (hfc : conflictNamesE fi ti = Except.ok fconf)
    (hdc : conflictNamesE da ta = Except.ok dconf) :
    noEmptyTable (add_projects_section ps pt).1
      ∧ noEmptyTable (add_filters_section fi ti).1
      ∧ noEmptyTable (add_dashboards_section da ta).1
      ∧ noEmptyTable (add_custom_fields_section scf tcf).1
      ∧ noEmptyTable (add_statuses_section sst tst).1
      ∧ (analyze_additions psm ptm = [] →
          DocItem.para "We didn\x27t identify anything that will be added." ∈
            (add_projects_section ps pt).1)
      ∧ (analyze_additions smap tmap = [] →
          DocItem.para "We didn\x27t identify anything that will be added." ∈
            (analyze_and_add_section title gs gt key_attr).1)
      ∧ (fconf = [] →
          DocItem.para "No conflicts were identified regarding filters during the assessment." ∈
            (add_filters_section fi ti).1)
      ∧ (dconf = [] →
          DocItem.para "No conflicts were identified regarding Dashboards during the assessment." ∈
            (add_dashboards_section da ta).1)
      ∧ (cfAdditions csf ctf = [] →
          DocItem.para "No custom fields will be added." ∈
            (add_custom_fields_section scf tcf).1)
      ∧ (cfMerges csf ctf = [] →
          DocItem.para "No custom fields have the same name on both instances with different types." ∈
            (add_custom_fields_section scf tcf).1)
      ∧ (cfNonMigratable csf = [] →
          DocItem.para "No custom fields will not be migrated." ∈
            (add_custom_fields_section scf tcf).1)
      ∧ (analyze_additions ssm tsm = [] →
          DocItem.para "No statuses will be added." ∈
            (add_statuses_section sst tst).1)
      ∧ (statusConflicts ssm tsm = [] →
          DocItem.para "No statuses have the same name but different categories." ∈
            (add_statuses_section sst tst).1)
      ∧ DocItem.table ["Name", "Description"]
          ((analyze_merges smap tmap).map (fun p => [p.1, p.2])) ∈
          (analyze_and_add_section title gs gt key_attr).1
      ∧ (analyze_merges psm ptm = [] →
          DocItem.heading "These project keys have conflicts and will need to be renamed in the source or target instance in order to be migrated." 2 ∉
            (add_projects_section ps pt).1) := by
  refine ⟨noEmptyTable_projects ps pt, noEmptyTable_filters fi ti,
    noEmptyTable_dashboards da ta, noEmptyTable_custom_fields scf tcf,
    noEmptyTable_statuses sst tst, ?_, ?_, ?_, ?_, ?_, ?_, ?_, ?_, ?_, ?_, ?_⟩
  · intro hA
    simp only [add_projects_section, hps, hpt]
    simp [hA]
  · intro hA
    simp only [analyze_and_add_section, hgs, hgt]
    simp [hA]
  · intro hC
    simp only [add_filters_section, hfc]
    simp [hC]
  · intro hC
    simp only [add_dashboards_section, hdc]
    simp [hC]
  · intro hA
    simp only [add_custom_fields_section, hcs, hct]
    simp [hA]
  · intro hM
    simp only [add_custom_fields_section, hcs, hct]
    simp [hM]
  · intro hN
    simp only [add_custom_fields_section, hcs, hct]
    simp [hN]
  · intro hA
    simp only [add_statuses_section, hss, hst]
    simp [hA]
  · intro hC
    simp only [add_statuses_section, hss, hst]
    simp [hC]
  · simp only [analyze_and_add_section, hgs, hgt]
    split <;> simp
  · intro hC
    simp only [add_projects_section, hps, hpt]
    rw [hC]
    split <;> simp

/-- C4 witness: with every collection empty, the conforming categories render
their sentences, the generic merges table is rendered header-only, and the
projects conflicts category renders nothing. -/
theorem empty_rendering_witness :
    noEmptyTable (add_projects_section [] []).1
      ∧ noEmptyTable (add_filters_section [] []).1
      ∧ noEmptyTable (add_dashboards_section [] []).1
      ∧ noEmptyTable (add_custom_fields_section [] []).1
      ∧ noEmptyTable (add_statuses_section [] []).1
      ∧ DocItem.para "We didn\x27t identify anything that will be added." ∈
          (add_projects_section [] []).1
      ∧ DocItem.para "We didn\x27t identify anything that will be added." ∈
          (analyze_and_add_section "Priorities" [] [] "name").1
      ∧ DocItem.para "No conflicts were identified regarding filters during the assessment." ∈
          (add_filters_section [] []).1
      ∧ DocItem.para "No conflicts were identified regarding Dashboards during the assessment." ∈
          (add_dashboards_section [] []).1
      ∧ DocItem.para "No custom fields will be added." ∈
          (add_custom_fields_section [] []).1
      ∧ DocItem.para "No custom fields have the same name on both instances with different types." ∈
          (add_custom_fields_section [] []).1
      ∧ DocItem.para "No custom fields will not be migrated." ∈
          (add_custom_fields_section [] []).1
      ∧ DocItem.para "No statuses will be added." ∈
          (add_statuses_section [] []).1
      ∧ DocItem.para "No statuses have the same name but different categories." ∈
          (add_statuses_section [] []).1
      ∧ DocItem.table ["Name", "Description"] [] ∈
          (analyze_and_add_section "Priorities" [] [] "name").1
      ∧ DocItem.heading "These project keys have conflicts and will need to be renamed in the source or target instance in order to be migrated." 2 ∉
          (add_projects_section [] []).1 := by
  obtain ⟨h1, h2, h3, h4, h5, h6, h7, h8, h9, h10, h11, h12, h13, h14, h15, h16⟩ :=
    empty_rendering_amended [] [] [] [] [] [] [] [] [] [] "Priorities" "name"
      [] [] [] [] [] [] [] [] [] [] [] []
      rfl rfl rfl rfl rfl rfl rfl rfl rfl rfl
  exact ⟨h1, h2, h3, h4, h5, h6 rfl, h7 rfl, h8 rfl, h9 rfl, h10 rfl, h11 rfl,
    h12 rfl, h13 rfl, h14 rfl, h15, h16 rfl⟩
